import Mathlib

/-
  Verification development for the task/goal reminder service
  (src/remind_service.py).

  The Python source is shallowly embedded below:
  * loosely-typed Notion records become a tagged `PropValue` union over an
    association list of properties (`Props`);
  * the extraction helpers (`find_prop_key`, `extract_prop_text`,
    `safe_select`, `safe_date`, `safe_formula`, `safe_rollup_number`,
    `get_checkbox`, `get_date_start`) are translated clause by clause;
  * the goal-progress normalisation block of `read_goal_properties`
    (source lines 473-498) becomes `read_goal_progress_pct`;
  * the daily-selection loop of `job_daily` (lines 558-583), its
    goal-bucket aggregation (lines 635-661), the `/check` listing loop and
    `/done` handler of `webhook` (lines 1134-1253), and the
    `done_this_month` counting loop of `job_monthly` (lines 969-981) are
    embedded over a mid-level `Task`/`Page` record in which a parsed due
    date is abstracted to a day ordinal (only differences and order of due
    dates are observable in those code paths);
  * Python built-ins used by the source (`float`, `round`, `str` of a
    number, string `strip`/`split`/`lower`, `dateutil` parsing of the ISO
    date strings Notion emits) get executable stand-ins.  Numbers that
    Python holds as floats are modelled by exact fractions (`Frac`); every
    numeric literal the analysed claims exercise is exactly representable
    in both, so no rounding discrepancy is observable.
-/

namespace RemindService

/-! ## Exact fractions standing in for Python numbers

`Frac` is a rational kept in lowest terms with a positive denominator by
its smart constructor `mkFrac`; every operation goes through `mkFrac`,
so structural equality of computed values is value equality. -/

structure Frac where
  num : ℤ
  den : ℤ
deriving DecidableEq

/-- Normalising constructor: positive denominator, lowest terms. -/
def mkFrac (n d : ℤ) : Frac :=
  if d = 0 then ⟨0, 1⟩
  else
    let s : ℤ := if d < 0 then -1 else 1
    let n1 := s * n
    let d1 := s * d
    let g : ℤ := (Int.gcd n1 d1 : ℤ)
    if g = 0 then ⟨0, 1⟩ else ⟨n1 / g, d1 / g⟩

instance (n : ℕ) : OfNat Frac n := ⟨⟨(n : ℤ), 1⟩⟩

def Frac.ofInt (n : ℤ) : Frac := ⟨n, 1⟩

def Frac.mul (a b : Frac) : Frac := mkFrac (a.num * b.num) (a.den * b.den)

def Frac.div (a b : Frac) : Frac := mkFrac (a.num * b.den) (a.den * b.num)

def Frac.sub (a b : Frac) : Frac := mkFrac (a.num * b.den - b.num * a.den) (a.den * b.den)

/-- `a <= b`, relying on the positive-denominator invariant. -/
def Frac.leb (a b : Frac) : Bool := decide (a.num * b.den ≤ b.num * a.den)

/-- `a < b`, relying on the positive-denominator invariant. -/
def Frac.ltb (a b : Frac) : Bool := decide (a.num * b.den < b.num * a.den)

/-- Python number truthiness: zero is falsy. -/
def Frac.isZero (a : Frac) : Bool := a.num == 0

def Frac.floor (a : Frac) : ℤ := Int.fdiv a.num a.den

def Frac.ceil (a : Frac) : ℤ := -(Int.fdiv (-a.num) a.den)

/-! ## Stand-ins for Python built-ins used by the source -/

/-- Value of a list of decimal digit characters. -/
def digitsToNat (cs : List Char) : ℕ :=
  cs.foldl (fun a c => a * 10 + (c.toNat - 48)) 0

/-- Python `s.lower()`; ASCII case folding (the analysed claims only
exercise exact-key lookups and already-lowercase non-ASCII letters, so
the folding of non-ASCII capitals is not load-bearing). -/
def pyLower (s : String) : String := String.mk (s.toList.map Char.toLower)

/-- Drop leading whitespace from a character list. -/
def dropLeadingWS : List Char → List Char
  | [] => []
  | c :: cs => if c.isWhitespace then dropLeadingWS cs else c :: cs

/-- Python `s.strip()`: remove leading and trailing whitespace. -/
def pyStrip (s : String) : String :=
  String.mk (((dropLeadingWS s.toList).reverse |> dropLeadingWS).reverse)

/-- Python `s.split(sep)` for a one-character separator. -/
def splitOnChar (sep : Char) : List Char → List (List Char)
  | [] => [[]]
  | c :: cs =>
    let rest := splitOnChar sep cs
    if c == sep then [] :: rest
    else
      match rest with
      | [] => [[c]]
      | r :: rs => (c :: r) :: rs

/-- Models Python `float(s)` on plain decimal literals (optional sign,
integer part, optional fractional part), which is the shape of every
numeric string this service feeds to `float`.  Exponent, `inf` and `nan`
spellings are not exercised by any analysed input and yield `none`, as
does every malformed string (where Python raises `ValueError`, which
each caller catches). -/
def pyFloat? (s : String) : Option Frac :=
  let cs := s.toList
  let sgn : ℤ := if cs.headD ' ' == '-' then -1 else 1
  let body : List Char :=
    match cs with
    | '-' :: t => t
    | '+' :: t => t
    | t => t
  match splitOnChar '.' body with
  | [ip] =>
    if ip.isEmpty then none
    else if ip.all Char.isDigit then some (mkFrac (sgn * (digitsToNat ip : ℤ)) 1)
    else none
  | [ip, fp] =>
    if ip.isEmpty && fp.isEmpty then none
    else if ip.all Char.isDigit && fp.all Char.isDigit then
      some (mkFrac (sgn * ((digitsToNat ip : ℤ) * (10 : ℤ) ^ fp.length + (digitsToNat fp : ℤ)))
        ((10 : ℤ) ^ fp.length))
    else none
  | _ => none

/-- Models Python 3 `round(x)`: round half to even (banker's rounding). -/
def pyRound (q : Frac) : ℤ :=
  let f := q.floor
  let frac := q.sub (Frac.ofInt f)
  if frac.ltb (mkFrac 1 2) then f
  else if (mkFrac 1 2).ltb frac then f + 1
  else if f % 2 = 0 then f else f + 1

/-- Models Python `round(x, 2)` (used by the spec's Velocity Planner). -/
def round2 (q : Frac) : Frac := mkFrac (pyRound (q.mul (Frac.ofInt 100))) 100

/-- Models Python `str(x)` on a number.  The exact decimal rendering is
not load-bearing for any claim (no analysed code path re-reads it as a
specific text); only that a present number yields a string is observable. -/
def pyNumStr (q : Frac) : String :=
  if q.den == 1 then toString q.num else toString q.num ++ "/" ++ toString q.den

/-- A calendar date as carried by Python `datetime.date`; ordered
lexicographically, exactly as Python compares dates. -/
structure PyDate where
  year : ℤ
  month : ℤ
  day : ℤ
deriving DecidableEq

/-- Python `a <= b` on `datetime.date`: lexicographic on (year, month, day). -/
def dateLE (a b : PyDate) : Bool :=
  decide (a.year < b.year) ||
    (a.year == b.year &&
      (decide (a.month < b.month) ||
        (a.month == b.month && decide (a.day ≤ b.day))))

/-- Models `dateutil.parser.parse(s).date()` restricted to the ISO-8601
strings Notion emits (`YYYY-MM-DD`, optionally followed by a time part).
Any other shape yields `none`, as the callers catch the parse exception. -/
def pyParseDate? (s : String) : Option PyDate :=
  match s.toList with
  | y1 :: y2 :: y3 :: y4 :: sep1 :: m1 :: m2 :: sep2 :: d1 :: d2 :: rest =>
    if (sep1 == '-') && (sep2 == '-')
        && ([y1, y2, y3, y4, m1, m2, d1, d2].all Char.isDigit)
        && (rest.isEmpty || rest.headD ' ' == 'T' || rest.headD ' ' == ' ') then
      let y : ℤ := (digitsToNat [y1, y2, y3, y4] : ℤ)
      let m : ℤ := (digitsToNat [m1, m2] : ℤ)
      let d : ℤ := (digitsToNat [d1, d2] : ℤ)
      if 1 ≤ m ∧ m ≤ 12 ∧ 1 ≤ d ∧ d ≤ 31 then some ⟨y, m, d⟩ else none
    else none
  | _ => none

/-- Prefix test on character lists. -/
def startsWithChars : List Char → List Char → Bool
  | _, [] => true
  | [], _ :: _ => false
  | h :: hs, n :: ns => h == n && startsWithChars hs ns

/-- Models Python `needle in hay` on strings (character lists). -/
def containsChars : List Char → List Char → Bool
  | [], needle => needle.isEmpty
  | h :: t, needle => startsWithChars (h :: t) needle || containsChars t needle

/-- Models Python `needle in hay` on strings. -/
def containsStr (hay needle : String) : Bool :=
  containsChars hay.toList needle.toList

/-! ## The loosely-typed Notion record model (spec section 3 / 4.1)

Properties are an ordered association list from name to a tagged value,
one variant per Notion type tag handled by the source. -/

/-- The payload of a Notion `formula` property object: the source probes
the `string`, `number`, `boolean` and `date.start` slots in turn. -/
structure FormulaObj where
  string : Option String
  number : Option Frac
  boolean : Option Bool
  dateStart : Option String
deriving DecidableEq

/-- One element of a Notion `rollup.array`: the source probes `id`,
`title` and `plain_text` keys in turn. -/
structure RollupItem where
  id : Option String
  title : Option (List String)
  plainText : Option String
deriving DecidableEq

/-- The payload of a Notion `rollup` property object. -/
structure RollupObj where
  number : Option Frac
  array : List RollupItem
deriving DecidableEq

/-- A Notion property value, tagged by its declared type.  Rich text is
abstracted to the list of its runs' `plain_text` fields, a relation to
the list of related page ids. -/
inductive PropValue where
  | title (runs : List String)
  | richText (runs : List String)
  | checkbox (b : Bool)
  | select (name : Option String)
  | multiSelect (names : List String)
  | date (start : Option String)
  | number (n : Option Frac)
  | formula (f : FormulaObj)
  | rollup (r : RollupObj)
  | relation (ids : List String)
deriving DecidableEq

/-- The `properties` mapping of a Notion page. -/
abbrev Props := List (String × PropValue)

/-- A raw Notion page: its id and its properties. -/
structure Page where
  id : String
  props : Props
deriving DecidableEq

/-! ## Property-name constants (source lines 48-69, default values) -/

def PROP_DONE : String := "Done"
def PROP_COMPLETED : String := "Ngày hoàn thành thực tế"
def GOAL_PROP_PROGRESS : String := "Tiến Độ"
def GOAL_PROP_TOTAL_TASKS : String := "Tổng nhiệm vụ cần làm"
def GOAL_PROP_DONE_TASKS : String := "Nhiệm vụ đã hoàn thành"

/-! ## Field Extractor (source lines 288-415) -/

/-- Python `"".join(part.get("plain_text", "") for part in rich)`. -/
def extract_plain_text_from_rich_text (rich : List String) : String :=
  String.join rich

/-- `find_prop_key` (source lines 293-305): exact key match first, then
first case-insensitive match, then first substring match, else `None`. -/
def find_prop_key (props : Props) (keyLike : String) : Option String :=
  if props.isEmpty || keyLike.toList.isEmpty then none
  else if (props.lookup keyLike).isSome then some keyLike
  else
    match props.find? (fun kv => pyLower kv.1 == pyLower keyLike) with
    | some kv => some kv.1
    | none =>
      match props.find? (fun kv => containsStr (pyLower kv.1) (pyLower keyLike)) with
      | some kv => some kv.1
      | none => none

/-- Stand-in for Python `str(first)` on a raw rollup array element that
has none of the probed keys; its exact text is not load-bearing. -/
def pyItemStr (_ : RollupItem) : String := "[object]"

/-- `extract_prop_text` (source lines 307-363), translated branch by
branch.  Note it signals absence with the empty string `""`. -/
def extract_prop_text (props : Props) (keyLike : String) : String :=
  if props.isEmpty || keyLike.toList.isEmpty then ""
  else
    match find_prop_key props keyLike with
    | none => ""
    | some k =>
      match props.lookup k with
      | none => ""
      | some prop =>
        match prop with
        | .formula f =>
          match f.string with
          | some s => s
          | none =>
            match f.number with
            | some n => pyNumStr n
            | none =>
              match f.boolean with
              | some b => if b then "1" else "0"
              | none =>
                match f.dateStart with
                | some ds => ds
                | none => ""
        | .rollup r =>
          match r.number with
          | some n => pyNumStr n
          | none =>
            match r.array with
            | [] => ""
            | first :: _ =>
              let idPart := first.id.getD ""
              if !idPart.toList.isEmpty then idPart
              else
                match first.title with
                | some tt => extract_plain_text_from_rich_text tt
                | none =>
                  match first.plainText with
                  | some pt => pt
                  | none => pyItemStr first
        | .title runs => extract_plain_text_from_rich_text runs
        | .richText runs => extract_plain_text_from_rich_text runs
        | .number n =>
          match n with
          | some v => pyNumStr v
          | none => ""
        | .date ds =>
          match ds with
          | some s => s
          | none => ""
        | .checkbox b => if b then "1" else "0"
        | .select sel =>
          match sel with
          | some nm => nm
          | none => ""
        | .multiSelect names => String.intercalate ", " names
        | .relation ids =>
          match ids with
          | [] => ""
          | r :: _ => r

/-- `safe_select` (source lines 365-373). -/
def safe_select (props : Props) (name : String) : Option String :=
  match find_prop_key props name with
  | none => none
  | some k =>
    match props.lookup k with
    | some (.select sel) => sel
    | _ => none

/-- `safe_date` (source lines 375-385). -/
def safe_date (props : Props) (name : String) : Option PyDate :=
  match find_prop_key props name with
  | none => none
  | some k =>
    match props.lookup k with
    | some (.date (some raw)) =>
      if raw.toList.isEmpty then none else pyParseDate? raw
    | _ => none

/-- Result of `safe_formula`: a string, a number, or a parsed date. -/
inductive FormulaScalar where
  | str (s : String)
  | num (q : Frac)
  | date (d : PyDate)
deriving DecidableEq

/-- `safe_formula` (source lines 387-403).  It probes `string`, `number`
and `date` in that order; a boolean formula falls through to `None`. -/
def safe_formula (props : Props) (name : String) : Option FormulaScalar :=
  match find_prop_key props name with
  | none => none
  | some k =>
    match props.lookup k with
    | some (.formula f) =>
      match f.string with
      | some s => some (.str s)
      | none =>
        match f.number with
        | some n => some (.num n)
        | none =>
          match f.dateStart with
          | some ds =>
            match pyParseDate? ds with
            | some d => some (.date d)
            | none => none
          | none => none
    | _ => none

/-- `safe_rollup_number` (source lines 405-415): a rollup's `number`,
else the length of its `array`. -/
def safe_rollup_number (props : Props) (name : String) : Option Frac :=
  match find_prop_key props name with
  | none => none
  | some k =>
    match props.lookup k with
    | some (.rollup r) =>
      match r.number with
      | some n => some n
      | none => some (Frac.ofInt (r.array.length : ℤ))
    | _ => none

/-- `get_checkbox` (source lines 193-196): exact-key lookup, defaulting
to `False`. -/
def get_checkbox (pg : Page) (propName : String) : Bool :=
  if propName.toList.isEmpty then false
  else
    match pg.props.lookup propName with
    | some (.checkbox b) => b
    | _ => false

/-- `get_date_start` (source lines 207-216), at date granularity:
exact-key lookup of `date.start`, parsed; `None` on absence or parse
failure. -/
def get_date_start (pg : Page) (propName : String) : Option PyDate :=
  if propName.toList.isEmpty then none
  else
    match pg.props.lookup propName with
    | some (.date (some raw)) =>
      if raw.toList.isEmpty then none else pyParseDate? raw
    | _ => none

/-! ## Goal Progress Normalizer: the progress block of
`read_goal_properties` (source lines 473-498) -/

/-- The `raw_prog is not None` arm of the progress normalisation:
`s = str(raw_prog).strip()`, strip a trailing `%`, `float(s)`, multiply
by 100 when `<= 1`, `int(round(val))`; `None` on parse failure.  For a
numeric formula result, `float(str(v))` round-trips to `v` and the text
never ends in `%`; for a date result, `float` of the date text fails. -/
def progress_from_formula (raw : FormulaScalar) : Option ℤ :=
  match raw with
  | .str s =>
    let s1 := pyStrip s
    let s2 := if s1.toList.getLast? == some '%' then pyStrip (String.mk s1.toList.dropLast) else s1
    match pyFloat? s2 with
    | some v => some (pyRound (if v.leb 1 then v.mul 100 else v))
    | none => none
  | .num v => some (pyRound (if v.leb 1 then v.mul 100 else v))
  | .date _ => none

/-- The progress-normalisation block of `read_goal_properties` (source
lines 473-498).  `raw` is the goal's `tien_do_formula`
(`safe_formula props GOAL_PROP_PROGRESS`), `total` / `done` its
`tong_nhiem_vu_rollup` / `nhiem_vu_da_hoan_rollup`.  The fallback guard
`if total and (done is not None)` requires `total` present and nonzero
(Python truthiness), and inside it `total > 0` selects the ratio, with 0
otherwise. -/
def read_goal_progress_pct (raw : Option FormulaScalar) (total done : Option Frac) : Option ℤ :=
  let fromFormula : Option ℤ :=
    match raw with
    | none => none
    | some fs => progress_from_formula fs
  match fromFormula with
  | some p => some p
  | none =>
    match total, done with
    | some t, some d =>
      if t.isZero then none
      else if (0 : Frac).ltb t then some (pyRound ((d.div t).mul 100))
      else some 0
    | _, _ => none

/-- `read_goal_properties` restricted to its `progress_pct` output: the
three inputs of the normalisation block extracted from the goal page as
the source does at lines 458-460. -/
def read_goal_progress_of_page (pg : Page) : Option ℤ :=
  read_goal_progress_pct
    (safe_formula pg.props GOAL_PROP_PROGRESS)
    (safe_rollup_number pg.props GOAL_PROP_TOTAL_TASKS)
    (safe_rollup_number pg.props GOAL_PROP_DONE_TASKS)

/-! ## Mid-level task / goal records

`job_daily`, the `/check` and `/done` handlers and the aggregation loops
read tasks only through `get_checkbox` (done flag), `get_date_start`
(due date), `get_select_name` (priority label) and the goal relation
list.  `Task` records those extracted values; a parsed due date is
abstracted to a day ordinal (an integer), since the code observes only
differences and order of due dates. -/

structure Task where
  id : String
  done : Bool
  due : Option ℤ
  priority : String
  goalIds : List String
deriving DecidableEq

/-- A goal page as seen by the aggregation loop: its id (and title). -/
structure Goal where
  id : String
  title : String
deriving DecidableEq

/-! ## Task Selector: the daily selection of `job_daily`
(source lines 544-583) -/

/-- The Notion-side query filter of `job_daily` (lines 544-552):
not done, due date non-empty. -/
def notion_daily_filter (t : Task) : Bool :=
  !t.done && t.due.isSome

/-- The priority-gated lookahead rule of `job_daily` (lines 561-577):
`days_left = (due_date - today).days`, label lowercased; `cao` within 2
days, `tb`/`trung bình` within 1, `thấp` within 0, else not selected. -/
def dailyPriorityRule (today : ℤ) (t : Task) : Bool :=
  match t.due with
  | none => false
  | some d =>
    let days_left := d - today
    let pri := pyLower t.priority
    if pri = "cao" then decide (days_left ≤ 2)
    else if pri = "tb" ∨ pri = "trung bình" then decide (days_left ≤ 1)
    else if pri = "thấp" then decide (days_left ≤ 0)
    else false

/-- The daily task selection of `job_daily`: the queried tasks, kept in
query order, filtered by the priority rule (lines 558-583). -/
def job_daily_select (tasks : List Task) (today : ℤ) : List Task :=
  (tasks.filter notion_daily_filter).filter (fun t => dailyPriorityRule today t)

/-- Spec-side restatement of the daily selection rule, following the
claim's words, for comparison with `job_daily_select` (the code's rule).
`cao` = High, `tb`/`trung bình` = Medium, `thấp` = Low. -/
def spec_daily_included (today : ℤ) (t : Task) : Prop :=
  t.done = false ∧ ∃ d, t.due = some d ∧
    ((pyLower t.priority = "cao" ∧ d - today ≤ 2)
      ∨ ((pyLower t.priority = "tb" ∨ pyLower t.priority = "trung bình") ∧ d - today ≤ 1)
      ∨ (pyLower t.priority = "thấp" ∧ d - today ≤ 0))

/-! ## Goal-Task Aggregator: the goals section of `job_daily`
(source lines 635-661) -/

/-- The contents of `goal_map[gid]`: built by iterating the selected
tasks and, per relation entry equal to `gid`, appending the task (no
deduplication, so a duplicated relation appends twice). -/
def goal_bucket (tasks : List Task) (gid : String) : List Task :=
  tasks.flatMap (fun t => (t.goalIds.filter (fun g => g == gid)).map (fun _ => t))

/-- The per-goal block construction and running total of `job_daily`
(lines 651-661): iterate the goal list, skip goals with an empty bucket,
append a block for the rest and add the bucket size to the total. -/
def job_daily_goal_blocks (goals : List Goal) (tasks : List Task) : List Goal × ℕ :=
  goals.foldl
    (fun acc g =>
      let b := goal_bucket tasks g.id
      if b.isEmpty then acc else (acc.1 ++ [g], acc.2 + b.length))
    ([], 0)

/-! ## The `/check` listing loop and `/done` handler of `webhook`
(source lines 1134-1253) -/

/-- The Notion-side query filter of `/check` (lines 1112-1117): not
done, and due within the current week or strictly before today. -/
def check_week_filter (today startWeek endWeek : ℤ) (t : Task) : Bool :=
  !t.done &&
    (match t.due with
     | some d => (decide (startWeek ≤ d) && decide (d ≤ endWeek)) || decide (d < today)
     | none => false)

/-- The `/check` rendering loop (lines 1137-1200): `visible_tasks`
starts empty; each not-done task contributes a line numbered
`len(visible_tasks) + 1`, but nothing is ever appended to
`visible_tasks`.  Returns (the line ordinals, the final
`visible_tasks`). -/
def check_visible_fold (tasks : List Task) : List ℕ × List Task :=
  tasks.foldl
    (fun acc p => if p.done then acc else (acc.1 ++ [acc.2.length + 1], acc.2))
    ([], [])

/-- `LAST_TASKS` as set by `/check` (line 1204): the ids of
`visible_tasks`. -/
def check_last_tasks (tasks : List Task) : List String :=
  (check_visible_fold tasks).2.map Task.id

/-- The user-visible outcome of the `/done.<n>` branch. -/
inductive DoneReply where
  | invalidNumber : DoneReply
  | success (n : ℕ) (title : String) : DoneReply
deriving DecidableEq

/-- `notion_update_page` (source lines 167-172): the store call's
outcome comes in as an `Except`; every exception is swallowed and turned
into `None`. -/
def notion_update_page (storeResponse : Except String Unit) : Option Unit :=
  match storeResponse with
  | .ok u => some u
  | .error _ => none

/-- The `/done.<n>` branch of `webhook` (lines 1228-1253), after the
number parsed: out-of-range replies with a corrective message; otherwise
the page id is taken from `LAST_TASKS[n-1]`, `notion_update_page` is
called with its result ignored, the title fetch may fail (yielding
`""`), and the success confirmation is sent unconditionally. -/
def done_command (lastTasks : List String) (n : ℕ)
    (storeResponse : Except String Unit) (fetchedTitle : Option String) : DoneReply :=
  if n < 1 ∨ lastTasks.length < n then .invalidNumber
  else
    let _pageId := lastTasks[n - 1]?
    let _updateResult := notion_update_page storeResponse
    .success n (fetchedTitle.getD "")

/-! ## Monthly completion counting of `job_monthly`
(source lines 918-981) -/

/-- `_parse_completed_datetime_from_page` (source lines 918-943): the
direct date property first, else the property's text representation
parsed; `None` when both fail. -/
def parse_completed_datetime_from_page (pg : Page) : Option PyDate :=
  match get_date_start pg PROP_COMPLETED with
  | some dt => some dt
  | none =>
    let s := extract_prop_text pg.props PROP_COMPLETED
    if s.toList.isEmpty then none else pyParseDate? s

/-- The `done_this_month` loop of `job_monthly` (lines 957-981): pages
from the done-checkbox query, each paired with its parsed completion
date when that date parses and lies in `[mstart, mend]`; pages whose
completion date does not parse are skipped (`continue`). -/
def job_monthly_done (pages : List Page) (mstart mend : PyDate) : List (Page × PyDate) :=
  (pages.filter (fun p => get_checkbox p PROP_DONE)).filterMap (fun p =>
    match parse_completed_datetime_from_page p with
    | none => none
    | some c => if dateLE mstart c && dateLE c mend then some (p, c) else none)

/-! ## Velocity Planner -/

/-- Modelled from the spec: the Velocity Planner's numeric outputs (spec
section 4.5).  `job_weekly` is referenced by the scheduler and by the
`/debug/run_weekly` endpoint but is not defined anywhere in the source,
so this component is reconstructed from the spec's words:
`days_remaining = max(0, (deadline - today).days)` with a 30-day default
horizon, `weeks_remaining = max(1, ceil(days_remaining / 7))`,
`tasks_remaining = max(0, total_tasks - done_tasks)`,
`required_velocity = round(tasks_remaining / weeks_remaining, 2)`. -/
structure VelocityReport where
  days_remaining : ℤ
  weeks_remaining : ℤ
  tasks_remaining : ℤ
  required_velocity : Frac
deriving DecidableEq

/-- Modelled from the spec: `plan(goal_snapshot, today)` restricted to
the numeric fields of spec section 4.5 (see `VelocityReport`). -/
def plan_velocity (deadline : Option ℤ) (today : ℤ) (total_tasks done_tasks : ℤ) :
    VelocityReport :=
  let days_remaining : ℤ :=
    match deadline with
    | some dl => max 0 (dl - today)
    | none => 30
  let weeks_remaining : ℤ := max 1 ((mkFrac days_remaining 7).ceil)
  let tasks_remaining : ℤ := max 0 (total_tasks - done_tasks)
  { days_remaining := days_remaining
    weeks_remaining := weeks_remaining
    tasks_remaining := tasks_remaining
    required_velocity := round2 ((Frac.ofInt tasks_remaining).div (Frac.ofInt weeks_remaining)) }

/-! ## Concrete fixtures used by the claim theorems -/

def c1_task_a : Task := ⟨"task-a", false, some 1, "Cao", []⟩
def c1_task_b : Task := ⟨"task-b", false, some 2, "TB", []⟩
def c1_task_c : Task := ⟨"task-c", false, some 3, "Thấp", []⟩

def c2_goal_page : Page :=
  ⟨"goal-150", [(GOAL_PROP_PROGRESS, .formula ⟨some "150%", none, none, none⟩)]⟩

def c3_page_no_completed : Page := ⟨"done-no-date", [(PROP_DONE, .checkbox true)]⟩
def c3_page_completed : Page :=
  ⟨"done-oct", [(PROP_DONE, .checkbox true), (PROP_COMPLETED, .date (some "2026-10-05"))]⟩
def c3_mstart : PyDate := ⟨2026, 10, 1⟩
def c3_mend : PyDate := ⟨2026, 10, 31⟩
def c3_date : PyDate := ⟨2026, 10, 5⟩

def c4_low_today : Task := ⟨"low-today", false, some 0, "Thấp", []⟩
def c4_low_tomorrow : Task := ⟨"low-tomorrow", false, some 1, "Thấp", []⟩
def c4_high_two : Task := ⟨"high-plus2", false, some 2, "Cao", []⟩
def c4_high_three : Task := ⟨"high-plus3", false, some 3, "Cao", []⟩
def c4_no_due : Task := ⟨"no-due", false, none, "Cao", []⟩

def c7_task : Task := ⟨"fanout-task", false, some 0, "Cao", ["goal-1", "goal-2"]⟩
def c7_goal1 : Goal := ⟨"goal-1", "Goal one"⟩
def c7_goal2 : Goal := ⟨"goal-2", "Goal two"⟩

/-! ## Helper lemmas -/

/-- The second component of the `/check` rendering fold never changes:
no task is ever appended to `visible_tasks`. -/
lemma check_visible_fold_snd :
    ∀ (tasks : List Task) (acc : List ℕ × List Task),
      (tasks.foldl
          (fun acc p => if p.done then acc else (acc.1 ++ [acc.2.length + 1], acc.2)) acc).2
        = acc.2 := by
  intro tasks
  induction tasks with
  | nil => intro acc; rfl
  | cons p ps ih =>
    intro acc
    rw [List.foldl_cons, ih]
    cases hp : p.done <;> simp [hp]

/-- The Python `if`-chain of the daily priority rule, together with the
query filter, is equivalent to the spec's disjunctive selection rule. -/
lemma daily_rule_iff (today : ℤ) (t : Task) :
    (notion_daily_filter t = true ∧ dailyPriorityRule today t = true) ↔
      spec_daily_included today t := by
  unfold notion_daily_filter dailyPriorityRule spec_daily_included
  cases hdue : t.due with
  | none => simp [hdue]
  | some d =>
    by_cases h1 : pyLower t.priority = "cao"
    · simp [hdue, h1, show ¬(("cao" : String) = "tb") from by decide,
        show ¬(("cao" : String) = "trung bình") from by decide,
        show ¬(("cao" : String) = "thấp") from by decide]
    · by_cases h2 : pyLower t.priority = "tb"
      · simp [hdue, h1, h2, show ¬(("tb" : String) = "thấp") from by decide,
          show ¬(("tb" : String) = "cao") from by decide]
      · by_cases h3 : pyLower t.priority = "trung bình"
        · simp [hdue, h1, h2, h3,
            show ¬(("trung bình" : String) = "thấp") from by decide,
            show ¬(("trung bình" : String) = "cao") from by decide]
        · by_cases h4 : pyLower t.priority = "thấp"
          · simp [hdue, h1, h2, h3, h4]
          · simp [hdue, h1, h2, h3, h4]

/-- Membership characterisation of `job_monthly_done`. -/
lemma mem_job_monthly_done (pages : List Page) (mstart mend : PyDate) (p : Page) (c : PyDate) :
    (p, c) ∈ job_monthly_done pages mstart mend ↔
      p ∈ pages ∧ get_checkbox p PROP_DONE = true ∧
        parse_completed_datetime_from_page p = some c ∧
        dateLE mstart c = true ∧ dateLE c mend = true := by
  simp only [job_monthly_done, List.mem_filterMap, List.mem_filter]
  constructor
  · rintro ⟨q, ⟨hq, hdone⟩, hf⟩
    cases hpq : parse_completed_datetime_from_page q with
    | none => rw [hpq] at hf; cases hf
    | some c0 =>
      rw [hpq] at hf
      dsimp only at hf
      by_cases hcond : (dateLE mstart c0 && dateLE c0 mend) = true
      · rw [if_pos hcond] at hf
        have hpair := Option.some.inj hf
        injection hpair with hq1 hc1
        subst hq1; subst hc1
        rcases (Bool.and_eq_true _ _).mp hcond with ⟨hm1, hm2⟩
        exact ⟨hq, hdone, hpq, hm1, hm2⟩
      · rw [if_neg hcond] at hf; cases hf
  · rintro ⟨hp, hdone, hparse, hm1, hm2⟩
    refine ⟨p, ⟨hp, hdone⟩, ?_⟩
    rw [hparse]
    simp [hm1, hm2]

/-- Membership characterisation of a goal's task bucket. -/
lemma mem_goal_bucket (tasks : List Task) (gid : String) (t : Task) :
    t ∈ goal_bucket tasks gid ↔ t ∈ tasks ∧ gid ∈ t.goalIds := by
  simp only [goal_bucket, List.mem_flatMap, List.mem_map, List.mem_filter, beq_iff_eq]
  constructor
  · rintro ⟨a, ha, x, ⟨hx, hxg⟩, hat⟩
    subst hat
    subst hxg
    exact ⟨ha, hx⟩
  · rintro ⟨ht, hg⟩
    exact ⟨t, ht, gid, ⟨hg, rfl⟩, rfl⟩

/-- Unrolling the block-building fold of the Goal-Task Aggregator. -/
lemma job_daily_goal_blocks_foldl (tasks : List Task) :
    ∀ (goals : List Goal) (acc : List Goal × ℕ),
      goals.foldl
          (fun acc g =>
            let b := goal_bucket tasks g.id
            if b.isEmpty then acc else (acc.1 ++ [g], acc.2 + b.length)) acc
        = (acc.1 ++ goals.filter (fun g => !(goal_bucket tasks g.id).isEmpty),
           acc.2 + ((goals.filter (fun g => !(goal_bucket tasks g.id).isEmpty)).map
              (fun g => (goal_bucket tasks g.id).length)).sum) := by
  intro goals
  induction goals with
  | nil => intro acc; simp
  | cons g gs ih =>
    intro acc
    rw [List.foldl_cons]
    by_cases hb : (goal_bucket tasks g.id).isEmpty
    · rw [ih]
      simp [hb, List.filter_cons]
    · rw [ih]
      simp [hb, List.filter_cons, Nat.add_assoc]

/-! ## Claim theorems -/

/-- Claim C1 (code bug evaluation): the `/check` listing never populates
`visible_tasks`, so the Index Cache (`LAST_TASKS`) is set to the empty
list after every listing; with three not-done tasks displayed, every line
is numbered 1 and a subsequent `/done.2` resolves to the out-of-range
reply instead of the second displayed id. -/
theorem check_cache_never_populated :
    (∀ tasks : List Task, check_last_tasks tasks = [])
    ∧ (check_visible_fold [c1_task_a, c1_task_b, c1_task_c]).1 = [1, 1, 1]
    ∧ done_command (check_last_tasks [c1_task_a, c1_task_b, c1_task_c]) 2
        (Except.ok ()) none = DoneReply.invalidNumber := by
  refine ⟨?_, by decide, by decide⟩
  intro tasks
  simp [check_last_tasks, check_visible_fold, check_visible_fold_snd]

/-- Claim C2 (code bug evaluation): the Goal Progress Normalizer does not
clamp: the explicit progress text `"150%"` normalises to 150 and `-0.5`
to -50, both outside `[0, 100]`, although the function's own docstring
announces an `int 0..100` result. -/
theorem progress_pct_unclamped_eval :
    read_goal_progress_of_page c2_goal_page = some 150
    ∧ read_goal_progress_pct (some (.str "-0.5")) none none = some (-50)
    ∧ ¬((150 : ℤ) ≤ 100) := by
  decide

/-- Claim C3 (counterexample): a task whose done checkbox is set but that
has no completed-date property is skipped by the monthly completion
count — the claim's required "count toward the completed total" fails. -/
theorem done_without_completed_not_counted :
    get_checkbox c3_page_no_completed PROP_DONE = true
    ∧ parse_completed_datetime_from_page c3_page_no_completed = none
    ∧ job_monthly_done [c3_page_no_completed] c3_mstart c3_mend = [] := by
  decide

/-- Claim C3 (amended): the monthly completion counting never raises and
never reclassifies a done task as not-done, but a done task whose
completed date cannot be parsed is excluded from the month's completed
list (it does not count), while done tasks with a parsed in-range
completed date are counted. -/
theorem done_unparsed_completed_skipped :
    (∀ (pages : List Page) (mstart mend : PyDate) (p : Page) (c : PyDate),
        parse_completed_datetime_from_page p = none →
        (p, c) ∉ job_monthly_done pages mstart mend)
    ∧ (∀ (pages : List Page) (mstart mend : PyDate) (p : Page) (c : PyDate),
        p ∈ pages → get_checkbox p PROP_DONE = true →
        parse_completed_datetime_from_page p = some c →
        dateLE mstart c = true → dateLE c mend = true →
        (p, c) ∈ job_monthly_done pages mstart mend) := by
  constructor
  · intro pages mstart mend p c hnone hmem
    rw [mem_job_monthly_done] at hmem
    rw [hnone] at hmem
    cases hmem.2.2.1
  · intro pages mstart mend p c hp hdone hparse hm1 hm2
    exact (mem_job_monthly_done pages mstart mend p c).mpr ⟨hp, hdone, hparse, hm1, hm2⟩

/-- Claim C3 (witness): the done task without a completed date is not in
the October 2026 completed list, while the done task completed on
2026-10-05 is. -/
theorem done_unparsed_completed_skipped_witness :
    (c3_page_no_completed, c3_date) ∉
        job_monthly_done [c3_page_no_completed, c3_page_completed] c3_mstart c3_mend
    ∧ (c3_page_completed, c3_date) ∈
        job_monthly_done [c3_page_no_completed, c3_page_completed] c3_mstart c3_mend :=
  ⟨done_unparsed_completed_skipped.1 _ c3_mstart c3_mend _ c3_date (by decide),
   done_unparsed_completed_skipped.2 _ c3_mstart c3_mend _ c3_date (by decide) (by decide)
     (by decide) (by decide) (by decide)⟩

/-- Claim C4: a task is selected by the daily job exactly when it is a
queried not-done task with a due date satisfying the priority-gated
lookahead (`cao` within 2 days, `tb`/`trung bình` within 1, `thấp`
within 0, overdue included), and the boundary cases behave as claimed:
a Low task due today is selected, due tomorrow is not; a High task due
in 2 days is selected, in 3 days is not; a task without a due date never
is. -/
theorem daily_selection_rule :
    (∀ (tasks : List Task) (today : ℤ) (t : Task),
        t ∈ job_daily_select tasks today ↔ t ∈ tasks ∧ spec_daily_included today t)
    ∧ job_daily_select [c4_low_today] 0 = [c4_low_today]
    ∧ job_daily_select [c4_low_tomorrow] 0 = []
    ∧ job_daily_select [c4_high_two] 0 = [c4_high_two]
    ∧ job_daily_select [c4_high_three] 0 = []
    ∧ job_daily_select [c4_no_due] 0 = [] := by
  refine ⟨?_, by decide, by decide, by decide, by decide, by decide⟩
  intro tasks today t
  rw [job_daily_select, List.mem_filter, List.mem_filter, and_assoc]
  exact and_congr_right fun _ => daily_rule_iff today t

/-- Claim C5 (counterexample): with no explicit progress field, a zero
`total_tasks` and a present `done_tasks`, the normaliser yields Absent
(`none`), not the claimed 0 — the truthiness guard `if total` excludes
the zero case before the `else 0` branch could produce it. -/
theorem progress_zero_total_absent :
    read_goal_progress_pct none (some 0) (some 6) = none
    ∧ read_goal_progress_pct none (some 0) (some 6) ≠ some 0 := by
  decide

/-- Claim C5 (amended): percentage resolution precedence as implemented:
a parsed explicit field wins regardless of the rollups (`"0.75"` gives
75 via the fraction heuristic); otherwise `round(done/total*100)` when
`total > 0` (10 and 6 give 60); the result is Absent when both sources
are absent, and also Absent — not 0 — when `total_tasks` is 0 or absent
while `done_tasks` is present. -/
theorem progress_resolution_amended :
    (∀ (total done : Option Frac),
        read_goal_progress_pct (some (.str "0.75")) total done = some 75)
    ∧ read_goal_progress_pct none (some 10) (some 6) = some 60
    ∧ read_goal_progress_pct none none none = none
    ∧ (∀ q : Frac, read_goal_progress_pct none (some 0) (some q) = none)
    ∧ (∀ q : Frac, read_goal_progress_pct none none (some q) = none)
    ∧ (∀ q : Frac, read_goal_progress_pct none (some q) none = none) := by
  refine ⟨fun total done => rfl, by decide, rfl, fun q => rfl, fun q => rfl, fun q => rfl⟩

/-- Claim C6 (counterexample): `extract_prop_text` yields the empty
string as its absence value — a missing field and a present-but-empty
rich-text field both yield `""`, so absence is signalled by the very
default the claim rules out. -/
theorem extract_prop_text_empty_default :
    extract_prop_text ([] : Props) "Tiến Độ" = ""
    ∧ extract_prop_text [("note", PropValue.richText [])] "note" = "" := by
  decide

/-- Claim C6 (amended): none of the extractors raises (all are total);
when the field name resolves to no property, the `safe_*` extractors
yield the distinguished `none` and `extract_prop_text` yields `""`; a
present-but-malformed property (null select, unparseable date, wrongly
typed formula) also yields `none` from the `safe_*` extractors. -/
theorem extractors_absent_behavior :
    (∀ (props : Props) (name : String),
        find_prop_key props name = none →
        safe_select props name = none
        ∧ safe_date props name = none
        ∧ safe_formula props name = none
        ∧ safe_rollup_number props name = none
        ∧ extract_prop_text props name = "")
    ∧ safe_date [("D", PropValue.date (some "garbage"))] "D" = none
    ∧ safe_select [("S", PropValue.select none)] "S" = none
    ∧ safe_formula [("F", PropValue.checkbox true)] "F" = none := by
  refine ⟨?_, by decide, by decide, by decide⟩
  intro props name h
  refine ⟨?_, ?_, ?_, ?_, ?_⟩
  · simp [safe_select, h]
  · simp [safe_date, h]
  · simp [safe_formula, h]
  · simp [safe_rollup_number, h]
  · simp [extract_prop_text, h]

/-- Claim C6 (witness): on the empty record, every extractor reports
absence as described. -/
theorem extractors_absent_behavior_witness :
    safe_select ([] : Props) "x" = none ∧ extract_prop_text ([] : Props) "x" = "" :=
  ⟨(extractors_absent_behavior.1 [] "x" rfl).1,
   (extractors_absent_behavior.1 [] "x" rfl).2.2.2.2⟩

/-- Claim C7: the Goal-Task Aggregator's blocks are exactly the goals
with a non-empty bucket, in goal-list order; a task is in a goal's
bucket exactly when it is selected and linked to that goal (fan-out, no
deduplication); the total is the sum of bucket sizes over the included
goals; and one selected task linked to two goals yields both blocks and
a total of 2. -/
theorem goal_aggregation_fanout :
    (∀ (goals : List Goal) (tasks : List Task),
        job_daily_goal_blocks goals tasks
          = (goals.filter (fun g => !(goal_bucket tasks g.id).isEmpty),
             ((goals.filter (fun g => !(goal_bucket tasks g.id).isEmpty)).map
                (fun g => (goal_bucket tasks g.id).length)).sum))
    ∧ (∀ (tasks : List Task) (gid : String) (t : Task),
        t ∈ goal_bucket tasks gid ↔ t ∈ tasks ∧ gid ∈ t.goalIds)
    ∧ job_daily_goal_blocks [c7_goal1, c7_goal2] [c7_task] = ([c7_goal1, c7_goal2], 2) := by
  refine ⟨?_, mem_goal_bucket, by decide⟩
  intro goals tasks
  rw [job_daily_goal_blocks, job_daily_goal_blocks_foldl]
  simp

/-- Claim C8: the daily Task Selector preserves the input order — its
output is a sublist (order-preserving subsequence) of the queried task
list, no sort is applied — and, being a pure function of its inputs,
two calls with the same inputs give the same ordered list. -/
theorem daily_selection_order_stable :
    ∀ (tasks : List Task) (today : ℤ),
      List.Sublist (job_daily_select tasks today) tasks
      ∧ job_daily_select tasks today = job_daily_select tasks today :=
  fun _ _ => ⟨(List.filter_sublist _).trans (List.filter_sublist _), rfl⟩

/-- Claim C9: the Velocity Planner (modelled from the spec, as
`job_weekly` is absent from the source) keeps `weeks_remaining` at
least 1, and on a goal due in 13 days with 10 total and 4 done tasks it
reports 6 tasks remaining over `ceil(13/7) = 2` weeks, a required
velocity of 3.0. -/
theorem velocity_planner_spec :
    (∀ (deadline : Option ℤ) (today total done : ℤ),
        1 ≤ (plan_velocity deadline today total done).weeks_remaining)
    ∧ (∀ today : ℤ,
        plan_velocity (some (today + 13)) today 10 4
          = { days_remaining := 13, weeks_remaining := 2, tasks_remaining := 6,
              required_velocity := 3 }) := by
  constructor
  · intro deadline today total done
    simp only [plan_velocity]
    exact le_max_left 1 _
  · intro today
    have h : today + 13 - today = (13 : ℤ) := by omega
    simp only [plan_velocity, h]
    decide

/-- Claim C10: once the index is in range, the `/done` handler replies
with the success confirmation whatever the store answered — the store
failure is swallowed by `notion_update_page` (which returns `None`) and
its result is ignored — so the reply on a failed update equals the reply
on a successful one. -/
theorem done_success_ignores_update :
    ∀ (lastTasks : List String) (n : ℕ) (e : String) (title : Option String),
      1 ≤ n → n ≤ lastTasks.length →
      done_command lastTasks n (Except.error e) title = DoneReply.success n (title.getD "")
      ∧ done_command lastTasks n (Except.error e) title
          = done_command lastTasks n (Except.ok ()) title
      ∧ notion_update_page (Except.error e) = none := by
  intro lastTasks n e title h1 h2
  have hcond : ¬(n < 1 ∨ lastTasks.length < n) := by omega
  refine ⟨?_, ?_, rfl⟩
  · unfold done_command
    rw [if_neg hcond]
  · unfold done_command
    rw [if_neg hcond]

/-- Claim C10 (witness): with two cached ids, index 2 and a failing
store update, the handler still reports success. -/
theorem done_success_ignores_update_witness :
    done_command ["page-a", "page-b"] 2 (Except.error "HTTP 500") (some "Task B")
        = DoneReply.success 2 "Task B"
    ∧ notion_update_page (Except.error "HTTP 500") = none :=
  ⟨(done_success_ignores_update ["page-a", "page-b"] 2 "HTTP 500" (some "Task B")
      (by decide) (by decide)).1,
   (done_success_ignores_update ["page-a", "page-b"] 2 "HTTP 500" (some "Task B")
      (by decide) (by decide)).2.2⟩

end RemindService
